import Mathlib

/-!
Verification of the loan-eligibility engine of the Alemeno credit-approval
service.  The Python source (loans/services.py, loans/serializers.py,
loans/views.py, loans/models.py) is embedded shallowly: Decimal arithmetic
becomes exact rational arithmetic over ℚ, Django querysets become explicit
lists, and the database becomes an explicit record of customers and loans.
The float intermediates of the EMI computation are modelled separately
(see flAt below) where their rounding behaviour matters.
-/

namespace Alemeno

/-- Calendar date, as Python datetime.date: year, month (1-12), day (1-31). -/
structure Date where
  year : ℤ
  month : ℕ
  day : ℕ
deriving DecidableEq

/-- Date order: lexicographic on (year, month, day), as Python date comparison. -/
def Date.le (a b : Date) : Prop :=
  a.year < b.year ∨ (a.year = b.year ∧
    (a.month < b.month ∨ (a.month = b.month ∧ a.day ≤ b.day)))

instance : LE Date := ⟨Date.le⟩

instance Date.instDecidableLe (a b : Date) : Decidable (a ≤ b) :=
  inferInstanceAs (Decidable (a.year < b.year ∨ (a.year = b.year ∧
    (a.month < b.month ∨ (a.month = b.month ∧ a.day ≤ b.day)))))

/-- Gregorian leap-year rule, as in the calendar module used by datetime. -/
def isLeapYear (y : ℤ) : Bool :=
  y % 4 == 0 && (y % 100 != 0 || y % 400 == 0)

/-- Number of days in a month of a given year. -/
def daysInMonth (y : ℤ) (m : ℕ) : ℕ :=
  if m = 2 then (if isLeapYear y then 29 else 28)
  else if m = 4 ∨ m = 6 ∨ m = 9 ∨ m = 11 then 30
  else 31

/-- dateutil relativedelta(months=n): advance n months, clamping the day of
the month to the last valid day of the target month. -/
def Date.addMonths (d : Date) (n : ℕ) : Date :=
  let idx : ℤ := d.year * 12 + (d.month : ℤ) - 1 + (n : ℤ)
  let y : ℤ := Int.ediv idx 12
  let m : ℕ := (Int.emod idx 12).toNat + 1
  ⟨y, m, min d.day (daysInMonth y m)⟩

/-- Decimal.quantize(Decimal(0.01), ROUND_HALF_UP) for a non-negative value:
round to cents, ties away from zero, i.e. ties upward. -/
def roundHalfUpCents (q : ℚ) : ℚ :=
  ((⌊q * 100 + 1/2⌋ : ℤ) : ℚ) / 100

/-- Decimal.quantize(Decimal(1), ROUND_HALF_UP) for a non-negative value:
round to an integer, ties upward. -/
def roundHalfUpUnits (q : ℚ) : ℚ :=
  ((⌊q + 1/2⌋ : ℤ) : ℚ)

/-- Customer row (loans/models.py, class Customer); only the fields the
eligibility engine reads. -/
structure Customer where
  customer_id : ℕ
  monthly_salary : ℚ
  approved_limit : ℚ
  current_debt : ℚ
deriving DecidableEq

/-- Loan row (loans/models.py, class Loan); the customer foreign key is the
customer id. -/
structure Loan where
  customer_id : ℕ
  loan_amount : ℚ
  tenure : ℕ
  interest_rate : ℚ
  monthly_repayment : ℚ
  emis_paid_on_time : ℕ
  start_date : Date
  end_date : Date
deriving DecidableEq

/-- The database: customer table and loan table. -/
structure DB where
  customers : List Customer
  loans : List Loan
deriving DecidableEq

/-- Loan.objects.filter(customer=customer). -/
def customerLoans (db : DB) (customer : Customer) : List Loan :=
  db.loans.filter (fun l => l.customer_id == customer.customer_id)

/-- Customer.objects.get(customer_id=customer_id), as an Option. -/
def getCustomer (db : DB) (customer_id : ℕ) : Option Customer :=
  db.customers.find? (fun c => c.customer_id == customer_id)

/-- CreditScoreCalculator.calculate_credit_score (loans/services.py 10-74),
with the aggregate queries replaced by list sums and the current year taken
from the supplied `today`.  Python mixes int, Decimal and float here; all
are modelled by exact rationals. -/
def calculate_credit_score (db : DB) (today : Date) (customer : Customer) : ℚ :=
  let customer_loans := customerLoans db customer
  if customer_loans.isEmpty then 50
  else
    let total_current_loans := (customer_loans.map Loan.loan_amount).sum
    if total_current_loans > customer.approved_limit then 0
    else
      let total_loans := customer_loans.length
      if total_loans = 0 then 50
      else
        let total_emis : ℚ := ((customer_loans.map Loan.tenure).sum : ℕ)
        let total_paid_on_time : ℚ := ((customer_loans.map Loan.emis_paid_on_time).sum : ℕ)
        let on_time_frac := total_paid_on_time / max total_emis 1
        let on_time_score := min 40 (on_time_frac * 40)
        let loan_count_score := max 0 (20 - (total_loans : ℚ) * 2)
        let current_year_loans :=
          (customer_loans.filter (fun l => l.start_date.year == today.year)).length
        let activity_score := min 20 ((current_year_loans : ℚ) * 5)
        let total_approved_volume := (customer_loans.map Loan.loan_amount).sum
        let volume_frac := min 1 (total_approved_volume / customer.approved_limit)
        let volume_score := volume_frac * 20
        let total_score := on_time_score + loan_count_score + activity_score + volume_score
        min 100 (max 0 total_score)

/-- LoanEligibilityService.calculate_monthly_installment
(loans/services.py 78-96) with the float intermediates replaced by exact
rational arithmetic; the final Decimal quantization is roundHalfUpCents. -/
def calculate_monthly_installment (loan_amount interest_rate : ℚ) (tenure : ℕ) : ℚ :=
  let monthly_rate := interest_rate / (12 * 100)
  if monthly_rate = 0 then
    roundHalfUpCents (loan_amount / (tenure : ℚ))
  else
    roundHalfUpCents (loan_amount * monthly_rate * (1 + monthly_rate) ^ tenure /
      ((1 + monthly_rate) ^ tenure - 1))

/-- LoanEligibilityService.get_corrected_interest_rate
(loans/services.py 98-110). -/
def get_corrected_interest_rate (credit_score requested_rate : ℚ) : ℚ :=
  if credit_score > 50 then max requested_rate 0
  else if credit_score > 30 then max requested_rate 12
  else if credit_score > 10 then max requested_rate 16
  else requested_rate

/-- The verdict dictionary returned by check_eligibility. -/
structure Verdict where
  approval : Bool
  message : String
  interest_rate : ℚ
  corrected_interest_rate : ℚ
  monthly_installment : ℚ
deriving DecidableEq

/-- LoanEligibilityService.check_eligibility (loans/services.py 112-201). -/
def check_eligibility (db : DB) (today : Date) (customer_id : ℕ)
    (loan_amount interest_rate : ℚ) (tenure : ℕ) : Verdict :=
  match getCustomer db customer_id with
  | none =>
    ⟨false, "Customer not found", interest_rate, interest_rate, 0⟩
  | some customer =>
    let credit_score := calculate_credit_score db today customer
    let corrected_rate := get_corrected_interest_rate credit_score interest_rate
    let monthly_installment := calculate_monthly_installment loan_amount corrected_rate tenure
    if credit_score ≤ 10 then
      ⟨false, "Credit score too low for loan approval", interest_rate, corrected_rate, 0⟩
    else
      let current_loans := db.loans.filter
        (fun l => l.customer_id == customer.customer_id && decide (today ≤ l.end_date))
      let current_emi_sum := (current_loans.map Loan.monthly_repayment).sum
      let total_emi_with_new_loan := current_emi_sum + monthly_installment
      let max_allowed_emi := customer.monthly_salary * (1/2)
      if total_emi_with_new_loan > max_allowed_emi then
        ⟨false, "Total EMI would exceed 50% of monthly salary",
          interest_rate, corrected_rate, 0⟩
      else
        if credit_score > 50 then
          ⟨true, "Loan approved", interest_rate, corrected_rate, monthly_installment⟩
        else if credit_score > 30 then
          if corrected_rate < 12 then
            ⟨false, "Interest rate too low for credit score",
              interest_rate, corrected_rate, 0⟩
          else
            ⟨true, "Loan approved with corrected interest rate",
              interest_rate, corrected_rate, monthly_installment⟩
        else if credit_score > 10 then
          if corrected_rate < 16 then
            ⟨false, "Interest rate too low for credit score",
              interest_rate, corrected_rate, 0⟩
          else
            ⟨true, "Loan approved with corrected interest rate",
              interest_rate, corrected_rate, monthly_installment⟩
        else
          ⟨false, "Credit score too low for loan approval",
            interest_rate, corrected_rate, 0⟩

/-- Outcome of the create_loan view: the database after the request, the
created loan if any, and the response fields. -/
structure IssueOutcome where
  db : DB
  loan : Option Loan
  loan_approved : Bool
  message : String
  monthly_installment : Option ℚ
deriving DecidableEq

/-- create_loan view (loans/views.py 84-155): run check_eligibility, and if
approved create the Loan row (emis_paid_on_time takes the model default 0,
loans/models.py 56) and add loan_amount to the current_debt of the customer
row. -/
def create_loan (db : DB) (today : Date) (customer_id : ℕ)
    (loan_amount interest_rate : ℚ) (tenure : ℕ) : IssueOutcome :=
  let result := check_eligibility db today customer_id loan_amount interest_rate tenure
  if result.approval = false then
    ⟨db, none, false, result.message, none⟩
  else
    match getCustomer db customer_id with
    | none => ⟨db, none, false, "Customer not found", none⟩
    | some customer =>
      let start_date := today
      let end_date := today.addMonths tenure
      let loan : Loan :=
        ⟨customer.customer_id, loan_amount, tenure, result.corrected_interest_rate,
          result.monthly_installment, 0, start_date, end_date⟩
      let customers := db.customers.map (fun c =>
        if c.customer_id == customer.customer_id then
          { c with current_debt := c.current_debt + loan_amount }
        else c)
      ⟨⟨customers, db.loans ++ [loan]⟩, some loan, true, "Loan approved successfully",
        some result.monthly_installment⟩

/-- CustomerRegistrationSerializer.create (loans/serializers.py 20-36):
approved limit is 36 times the monthly income, divided by one lakh,
quantized to an integer with ROUND_HALF_UP, times one lakh. -/
def approved_limit_of_income (monthly_income : ℚ) : ℚ :=
  roundHalfUpUnits (36 * monthly_income / 100000) * 100000

/-- Modelled from the spec wording: roundToNearestLakh(x) rounds x to the
nearest multiple of 100000, rounding half-up on the lakh-scaled quotient. -/
def roundToNearestLakh (x : ℚ) : ℚ :=
  ((⌊x / 100000 + 1/2⌋ : ℤ) : ℚ) * 100000

/-- Round a rational to the nearest integer, ties to even: the rounding of
IEEE-754 binary64 arithmetic used by Python floats. -/
def rne (q : ℚ) : ℤ :=
  if q - ⌊q⌋ < 1/2 then ⌊q⌋
  else if 1/2 < q - ⌊q⌋ then ⌊q⌋ + 1
  else if 2 ∣ ⌊q⌋ then ⌊q⌋ else ⌊q⌋ + 1

/-- IEEE-754 binary64 rounding of x for x in the binade [2^e, 2^(e+1)):
round to the nearest multiple of 2^(e-52), ties to even.  This models the
float conversions and the float division in
LoanEligibilityService.calculate_monthly_installment (loans/services.py
84-90), whose operands all lie in normal binades. -/
def flAt (e : ℤ) (x : ℚ) : ℚ :=
  ((rne (x * 2 ^ ((52 : ℤ) - e)) : ℤ) : ℚ) * 2 ^ (e - (52 : ℤ))

/-- Concrete evaluation date used by the witnesses. -/
def today0 : Date := ⟨2026, 10, 12⟩

/-- Witness fixture: a customer with no loan history. -/
def freshCustomer : Customer := ⟨1, 100000, 3600000, 0⟩

/-- Witness fixture: database holding only freshCustomer. -/
def dbFresh : DB := ⟨[freshCustomer], []⟩

/-- Witness fixture: a customer with salary 100000 and a high limit. -/
def seasonedCustomer : Customer := ⟨1, 100000, 10000000, 0⟩

/-- Witness fixture: an active loan with a monthly repayment of 60000,
already above half of the salary of seasonedCustomer. -/
def bigEmiLoan : Loan := ⟨1, 500000, 120, 12, 60000, 120, ⟨2020, 1, 1⟩, ⟨2030, 1, 1⟩⟩

/-- Witness fixture: database for the over-EMI scenario. -/
def dbBigEmi : DB := ⟨[seasonedCustomer], [bigEmiLoan]⟩

/-- Witness fixture: an active loan with a small monthly repayment. -/
def smallEmiLoan : Loan := ⟨1, 500000, 120, 12, 1000, 120, ⟨2020, 1, 1⟩, ⟨2030, 1, 1⟩⟩

/-- Witness fixture: database for the affordable scenario. -/
def dbSmallEmi : DB := ⟨[seasonedCustomer], [smallEmiLoan]⟩

/-- Helper: if the total loan amount strictly exceeds the approved limit
and the customer has at least one loan, the credit score is the hard
override 0 (loans/services.py 26-32). -/
lemma credit_score_zero_of_over (db : DB) (today : Date) (c : Customer)
    (hne : customerLoans db c ≠ [])
    (hover : c.approved_limit < ((customerLoans db c).map Loan.loan_amount).sum) :
    calculate_credit_score db today c = 0 := by
  have hempty : (customerLoans db c).isEmpty = false := by
    cases hcl : customerLoans db c
    · exact absurd hcl hne
    · rfl
  simp only [calculate_credit_score, hempty, Bool.false_eq_true, if_false]
  rw [if_pos hover]

/-- C1: the corrected interest rate follows the banding table of
get_corrected_interest_rate: max(r, 0) above score 50, max(r, 12) on
(30, 50], max(r, 16) on (10, 30], r unchanged at or below 10; it never
drops below the requested rate, and equals max(r, 0) above 50. -/
theorem c1_corrected_rate_banding (score r : ℚ) (hr : 0 ≤ r) :
    (50 < score → get_corrected_interest_rate score r = max r 0) ∧
    (30 < score → score ≤ 50 → get_corrected_interest_rate score r = max r 12) ∧
    (10 < score → score ≤ 30 → get_corrected_interest_rate score r = max r 16) ∧
    (score ≤ 10 → get_corrected_interest_rate score r = r) ∧
    r ≤ get_corrected_interest_rate score r := by
  refine ⟨?_, ?_, ?_, ?_, ?_⟩
  · intro h
    simp [get_corrected_interest_rate, h]
  · intro h30 h50
    have h1 : ¬ score > 50 := not_lt.mpr h50
    simp [get_corrected_interest_rate, h1, h30]
  · intro h10 h30
    have h1 : ¬ score > 50 := not_lt.mpr (by linarith)
    have h2 : ¬ score > 30 := not_lt.mpr h30
    simp [get_corrected_interest_rate, h1, h2, h10]
  · intro h
    have h1 : ¬ score > 50 := not_lt.mpr (by linarith)
    have h2 : ¬ score > 30 := not_lt.mpr (by linarith)
    have h3 : ¬ score > 10 := not_lt.mpr h
    simp [get_corrected_interest_rate, h1, h2, h3]
  · unfold get_corrected_interest_rate
    split_ifs <;> simp [le_max_left]

/-- Witness for C1 at score 60, requested rate 5. -/
theorem c1_corrected_rate_banding_witness :
    (0:ℚ) ≤ 5 ∧
    ((50 < (60:ℚ) → get_corrected_interest_rate 60 5 = max 5 0) ∧
     (30 < (60:ℚ) → (60:ℚ) ≤ 50 → get_corrected_interest_rate 60 5 = max 5 12) ∧
     (10 < (60:ℚ) → (60:ℚ) ≤ 30 → get_corrected_interest_rate 60 5 = max 5 16) ∧
     ((60:ℚ) ≤ 10 → get_corrected_interest_rate 60 5 = 5) ∧
     (5:ℚ) ≤ get_corrected_interest_rate 60 5) :=
  ⟨by norm_num, c1_corrected_rate_banding 60 5 (by norm_num)⟩

/-- C5: a customer with at least one loan whose summed loan amounts
strictly exceed the approved limit scores exactly 0. -/
theorem c5_overextended_scores_zero (db : DB) (today : Date) (c : Customer)
    (hne : customerLoans db c ≠ [])
    (hover : c.approved_limit < ((customerLoans db c).map Loan.loan_amount).sum) :
    calculate_credit_score db today c = 0 :=
  credit_score_zero_of_over db today c hne hover

/-- Witness for C5: one loan of 100 against an approved limit of 50. -/
theorem c5_overextended_scores_zero_witness :
    (customerLoans ⟨[⟨1, 100, 50, 0⟩], [⟨1, 100, 12, 10, 10, 12, ⟨2020, 1, 1⟩, ⟨2021, 1, 1⟩⟩]⟩
        ⟨1, 100, 50, 0⟩ ≠ []) ∧
    ((⟨1, (100:ℚ), 50, 0⟩ : Customer).approved_limit <
      ((customerLoans ⟨[⟨1, 100, 50, 0⟩], [⟨1, 100, 12, 10, 10, 12, ⟨2020, 1, 1⟩, ⟨2021, 1, 1⟩⟩]⟩
        ⟨1, 100, 50, 0⟩).map Loan.loan_amount).sum) ∧
    calculate_credit_score ⟨[⟨1, 100, 50, 0⟩], [⟨1, 100, 12, 10, 10, 12, ⟨2020, 1, 1⟩, ⟨2021, 1, 1⟩⟩]⟩
      ⟨2026, 10, 12⟩ ⟨1, 100, 50, 0⟩ = 0 := by
  have h1 : customerLoans ⟨[⟨1, 100, 50, 0⟩], [⟨1, 100, 12, 10, 10, 12, ⟨2020, 1, 1⟩, ⟨2021, 1, 1⟩⟩]⟩
      ⟨1, 100, 50, 0⟩ ≠ [] := by simp [customerLoans]
  have h2 : (⟨1, (100:ℚ), 50, 0⟩ : Customer).approved_limit <
      ((customerLoans ⟨[⟨1, 100, 50, 0⟩], [⟨1, 100, 12, 10, 10, 12, ⟨2020, 1, 1⟩, ⟨2021, 1, 1⟩⟩]⟩
        ⟨1, 100, 50, 0⟩).map Loan.loan_amount).sum := by norm_num [customerLoans]
  exact ⟨h1, h2, c5_overextended_scores_zero _ ⟨2026, 10, 12⟩ _ h1 h2⟩

/-- C6: an unknown customer id yields a non-crashing rejection verdict
with message Customer not found, installment 0, and corrected rate equal
to the requested rate. -/
theorem c6_unknown_customer (db : DB) (today : Date) (cid : ℕ)
    (amt rate : ℚ) (ten : ℕ) (h : getCustomer db cid = none) :
    check_eligibility db today cid amt rate ten =
      ⟨false, "Customer not found", rate, rate, 0⟩ := by
  unfold check_eligibility
  rw [h]

/-- Witness for C6 on an empty database. -/
theorem c6_unknown_customer_witness :
    getCustomer ⟨[], []⟩ 7 = none ∧
    check_eligibility ⟨[], []⟩ ⟨2026, 10, 12⟩ 7 100000 (21/2) 12 =
      ⟨false, "Customer not found", 21/2, 21/2, 0⟩ :=
  ⟨rfl, c6_unknown_customer ⟨[], []⟩ ⟨2026, 10, 12⟩ 7 100000 (21/2) 12 rfl⟩

/-- C8: the approved limit computed at registration equals 36 times the
monthly salary rounded to the nearest lakh, half-up on the lakh-scaled
quotient; it is non-negative and a whole number of lakhs. -/
theorem c8_approved_limit_lakh (income : ℚ) (h : 0 < income) :
    approved_limit_of_income income = roundToNearestLakh (36 * income) ∧
    0 ≤ approved_limit_of_income income ∧
    ∃ n : ℤ, approved_limit_of_income income = (n : ℚ) * 100000 := by
  refine ⟨rfl, ?_, ⟨⌊36 * income / 100000 + 1/2⌋, rfl⟩⟩
  have hq : (0:ℚ) ≤ 36 * income / 100000 + 1/2 := by positivity
  have hfl : (0:ℤ) ≤ ⌊36 * income / 100000 + 1/2⌋ := Int.floor_nonneg.mpr hq
  unfold approved_limit_of_income roundHalfUpUnits
  have hcast : (0:ℚ) ≤ ((⌊36 * income / 100000 + 1/2⌋ : ℤ) : ℚ) := by exact_mod_cast hfl
  nlinarith

/-- Witness for C8 at monthly income 60000: 36 times 60000 is 2160000,
which rounds to 22 lakh, matching the repository test expectation. -/
theorem c8_approved_limit_lakh_witness :
    (0:ℚ) < 60000 ∧
    (approved_limit_of_income 60000 = roundToNearestLakh (36 * 60000) ∧
     0 ≤ approved_limit_of_income 60000 ∧
     ∃ n : ℤ, approved_limit_of_income 60000 = (n : ℚ) * 100000) ∧
    approved_limit_of_income 60000 = 2200000 :=
  ⟨by norm_num, c8_approved_limit_lakh 60000 (by norm_num),
    by norm_num [approved_limit_of_income, roundHalfUpUnits]⟩

/-- C10: when every loan amount is positive and the customer has at least
one loan, reaching the volume-ratio division (total at most the limit)
forces a positive approved limit, and a zero approved limit trips the
overextension guard so the score is 0 before any division. -/
theorem c10_division_guarded (db : DB) (today : Date) (c : Customer)
    (hpos : ∀ l ∈ customerLoans db c, 0 < l.loan_amount)
    (hne : customerLoans db c ≠ []) :
    (((customerLoans db c).map Loan.loan_amount).sum ≤ c.approved_limit →
      0 < c.approved_limit) ∧
    (c.approved_limit = 0 → calculate_credit_score db today c = 0) := by
  have hsum : 0 < ((customerLoans db c).map Loan.loan_amount).sum := by
    apply List.sum_pos
    · intro x hx
      rcases List.mem_map.mp hx with ⟨l, hl, rfl⟩
      exact hpos l hl
    · intro hmap
      exact hne (List.map_eq_nil_iff.mp hmap)
  constructor
  · intro hle
    linarith
  · intro h0
    apply credit_score_zero_of_over db today c hne
    rw [h0]
    exact hsum

/-- Witness for C10: one positive loan of 30 against a limit of 40. -/
theorem c10_division_guarded_witness :
    (∀ l ∈ customerLoans ⟨[⟨1, 100, 40, 0⟩], [⟨1, 30, 12, 10, 10, 12, ⟨2020, 1, 1⟩, ⟨2021, 1, 1⟩⟩]⟩
        ⟨1, 100, 40, 0⟩, 0 < l.loan_amount) ∧
    (customerLoans ⟨[⟨1, 100, 40, 0⟩], [⟨1, 30, 12, 10, 10, 12, ⟨2020, 1, 1⟩, ⟨2021, 1, 1⟩⟩]⟩
        ⟨1, 100, 40, 0⟩ ≠ []) ∧
    ((((customerLoans ⟨[⟨1, 100, 40, 0⟩], [⟨1, 30, 12, 10, 10, 12, ⟨2020, 1, 1⟩, ⟨2021, 1, 1⟩⟩]⟩
        ⟨1, 100, 40, 0⟩).map Loan.loan_amount).sum ≤ (⟨1, (100:ℚ), 40, 0⟩ : Customer).approved_limit →
      0 < (⟨1, (100:ℚ), 40, 0⟩ : Customer).approved_limit) ∧
     ((⟨1, (100:ℚ), 40, 0⟩ : Customer).approved_limit = 0 →
      calculate_credit_score ⟨[⟨1, 100, 40, 0⟩], [⟨1, 30, 12, 10, 10, 12, ⟨2020, 1, 1⟩, ⟨2021, 1, 1⟩⟩]⟩
        ⟨2026, 10, 12⟩ ⟨1, 100, 40, 0⟩ = 0)) := by
  have h1 : ∀ l ∈ customerLoans ⟨[⟨1, 100, 40, 0⟩], [⟨1, 30, 12, 10, 10, 12, ⟨2020, 1, 1⟩, ⟨2021, 1, 1⟩⟩]⟩
      ⟨1, 100, 40, 0⟩, 0 < l.loan_amount := by
    intro l hl
    simp [customerLoans] at hl
    rw [hl]
    norm_num
  have h2 : customerLoans ⟨[⟨1, 100, 40, 0⟩], [⟨1, 30, 12, 10, 10, 12, ⟨2020, 1, 1⟩, ⟨2021, 1, 1⟩⟩]⟩
      ⟨1, 100, 40, 0⟩ ≠ [] := by simp [customerLoans]
  exact ⟨h1, h2, c10_division_guarded _ ⟨2026, 10, 12⟩ _ h1 h2⟩

/-- C2: an existing customer with no loan history scores exactly 50, which
falls in the 30 < score ≤ 50 band (not the score > 50 band); for a request
of 100000 at rate 10.5 over 12 months whose affordability check passes,
the corrected rate is max(10.5, 12) = 12 and the verdict is approval with
message Loan approved with corrected interest rate. -/
theorem c2_fresh_customer_scenario (db : DB) (today : Date) (cid : ℕ) (c : Customer)
    (hc : getCustomer db cid = some c)
    (hnl : customerLoans db c = [])
    (haff : calculate_monthly_installment 100000 12 12 ≤ c.monthly_salary * (1/2)) :
    calculate_credit_score db today c = 50 ∧
    get_corrected_interest_rate (calculate_credit_score db today c) (21/2) = 12 ∧
    check_eligibility db today cid 100000 (21/2) 12 =
      ⟨true, "Loan approved with corrected interest rate", 21/2, 12,
        calculate_monthly_installment 100000 12 12⟩ := by
  have hscore : calculate_credit_score db today c = 50 := by
    simp [calculate_credit_score, hnl]
  have hcorr : get_corrected_interest_rate 50 (21/2) = 12 := by
    simp only [get_corrected_interest_rate]
    rw [if_neg (by norm_num), if_pos (by norm_num)]
    exact max_eq_right (by norm_num)
  have hnl' : db.loans.filter (fun l => l.customer_id == c.customer_id) = [] := hnl
  have hfilter : db.loans.filter
      (fun l => l.customer_id == c.customer_id && decide (today ≤ l.end_date)) = [] := by
    rw [List.filter_eq_nil_iff]
    intro l hl hcontra
    rw [Bool.and_eq_true] at hcontra
    exact (List.filter_eq_nil_iff.mp hnl' l hl) hcontra.1
  refine ⟨hscore, ?_, ?_⟩
  · rw [hscore]
    exact hcorr
  · simp only [check_eligibility, hc]
    rw [hscore, hcorr, hfilter]
    rw [if_neg (by norm_num : ¬ ((50:ℚ) ≤ 10))]
    have h2 : ¬ (([] : List Loan).map Loan.monthly_repayment).sum +
        calculate_monthly_installment 100000 12 12 > c.monthly_salary * (1/2) := by
      simp only [List.map_nil, List.sum_nil, zero_add]
      exact not_lt.mpr haff
    rw [if_neg h2]
    rw [if_neg (by norm_num : ¬ ((50:ℚ) > 50)), if_pos (by norm_num : (50:ℚ) > 30)]
    rw [if_neg (by norm_num : ¬ ((12:ℚ) < 12))]

/-- C4: for a customer scoring above 10, if the repayments of the active
loans plus the new installment strictly exceed half the monthly salary,
check_eligibility rejects with the EMI message and forces the reported
installment to 0 even though a positive installment was computed. -/
theorem c4_emi_cap_rejection (db : DB) (today : Date) (cid : ℕ) (c : Customer)
    (amt rate : ℚ) (ten : ℕ)
    (hc : getCustomer db cid = some c)
    (hscore : 10 < calculate_credit_score db today c)
    (hemi : c.monthly_salary * (1/2) <
      ((db.loans.filter (fun l => l.customer_id == c.customer_id &&
          decide (today ≤ l.end_date))).map Loan.monthly_repayment).sum +
        calculate_monthly_installment amt
          (get_corrected_interest_rate (calculate_credit_score db today c) rate) ten)
    (hpos : 0 < calculate_monthly_installment amt
      (get_corrected_interest_rate (calculate_credit_score db today c) rate) ten) :
    check_eligibility db today cid amt rate ten =
      ⟨false, "Total EMI would exceed 50% of monthly salary", rate,
        get_corrected_interest_rate (calculate_credit_score db today c) rate, 0⟩ := by
  simp only [check_eligibility, hc]
  rw [if_neg (not_le.mpr hscore), if_pos hemi]

/-- C9: the rejection branch with message Interest rate too low for credit
score is unreachable: whenever the score is above 10 and the affordability
check passes, the corrected rate already meets the band floor, so the
verdict is approval. -/
theorem c9_low_rate_branch_unreachable (db : DB) (today : Date) (cid : ℕ) (c : Customer)
    (amt rate : ℚ) (ten : ℕ)
    (hc : getCustomer db cid = some c)
    (hscore : 10 < calculate_credit_score db today c)
    (haff : ((db.loans.filter (fun l => l.customer_id == c.customer_id &&
        decide (today ≤ l.end_date))).map Loan.monthly_repayment).sum +
      calculate_monthly_installment amt
        (get_corrected_interest_rate (calculate_credit_score db today c) rate) ten ≤
      c.monthly_salary * (1/2)) :
    (check_eligibility db today cid amt rate ten).approval = true ∧
    (check_eligibility db today cid amt rate ten).message ≠
      "Interest rate too low for credit score" := by
  simp only [check_eligibility, hc]
  rw [if_neg (not_le.mpr hscore), if_neg (not_lt.mpr haff)]
  by_cases h50 : calculate_credit_score db today c > 50
  · rw [if_pos h50]
    exact ⟨rfl, (by decide :
      ("Loan approved" : String) ≠ "Interest rate too low for credit score")⟩
  · rw [if_neg h50]
    by_cases h30 : calculate_credit_score db today c > 30
    · rw [if_pos h30]
      have hcr : get_corrected_interest_rate (calculate_credit_score db today c) rate =
          max rate 12 := by
        simp [get_corrected_interest_rate, h50, h30]
      rw [hcr, if_neg (not_lt.mpr (le_max_right rate 12))]
      exact ⟨rfl, (by decide : ("Loan approved with corrected interest rate" : String) ≠
        "Interest rate too low for credit score")⟩
    · rw [if_neg h30, if_pos hscore]
      have hcr : get_corrected_interest_rate (calculate_credit_score db today c) rate =
          max rate 16 := by
        simp [get_corrected_interest_rate, h50, h30, hscore]
      rw [hcr, if_neg (not_lt.mpr (le_max_right rate 16))]
      exact ⟨rfl, (by decide : ("Loan approved with corrected interest rate" : String) ≠
        "Interest rate too low for credit score")⟩

/-- Helper: updating, via map, exactly the rows whose id matches the id of
the customer found by find? makes find? return the updated customer. -/
lemma find?_map_update (l : List Customer) (cid : ℕ) (c : Customer)
    (f : Customer → Customer)
    (hfind : l.find? (fun x => x.customer_id == cid) = some c)
    (hid : (f c).customer_id = c.customer_id) :
    (l.map (fun x => if x.customer_id == c.customer_id then f x else x)).find?
      (fun x => x.customer_id == cid) = some (f c) := by
  induction l with
  | nil => simp at hfind
  | cons a t ih =>
    have hc2 : c.customer_id = cid := by simpa using List.find?_some hfind
    by_cases ha : (a.customer_id == cid) = true
    · simp only [List.find?_cons_of_pos, ha] at hfind
      have hac : a = c := by injection hfind
      subst hac
      simp only [List.map_cons]
      rw [if_pos (by simp : (a.customer_id == a.customer_id) = true)]
      apply List.find?_cons_of_pos
      show ((f a).customer_id == cid) = true
      rw [hid]
      exact ha
    · have ha2 : (a.customer_id == cid) = false := by simpa using ha
      rw [List.find?_cons, ha2] at hfind
      have hac : (a.customer_id == c.customer_id) = false := by
        rw [hc2]
        exact ha2
      simp only [List.map_cons]
      rw [if_neg (by simp [hac]), List.find?_cons, ha2]
      exact ih hfind

/-- C7: issuing a loan for an approved verdict adds exactly loan_amount to
the current debt of the customer row, and persists a Loan whose interest
rate is the corrected rate, whose monthly repayment is the computed
installment, with emis_paid_on_time 0, start date today, and end date
today plus tenure months. -/
theorem c7_issuance_effects (db : DB) (today : Date) (cid : ℕ) (c : Customer)
    (amt rate : ℚ) (ten : ℕ)
    (happ : (check_eligibility db today cid amt rate ten).approval = true)
    (hc : getCustomer db cid = some c) :
    (create_loan db today cid amt rate ten).loan =
      some ⟨c.customer_id, amt, ten,
        (check_eligibility db today cid amt rate ten).corrected_interest_rate,
        (check_eligibility db today cid amt rate ten).monthly_installment,
        0, today, today.addMonths ten⟩ ∧
    getCustomer (create_loan db today cid amt rate ten).db cid =
      some { c with current_debt := c.current_debt + amt } ∧
    (create_loan db today cid amt rate ten).loan_approved = true := by
  simp only [create_loan, happ, hc, Bool.true_eq_false, if_false]
  refine ⟨by trivial, ?_, by trivial⟩
  exact find?_map_update db.customers cid c
    (fun x => { x with current_debt := x.current_debt + amt }) hc rfl

/-- C3 (bug evidence): at principal 0.15, rate 0, tenure 6 the exact
quotient is 0.025, whose half-up rounding to the cent is 0.03, and the
exact-arithmetic embedding of calculate_monthly_installment returns 0.03;
but the Python code converts through binary64 floats, and the correctly
rounded float value of float(0.15)/6, here computed by flAt on the binades
[2^-3, 2^-2) and [2^-6, 2^-5) that contain the operands, falls strictly
below the 0.025 tie, so the ROUND_HALF_UP quantization of the float value
yields 0.02 instead of the 0.03 the spec requires. -/
theorem c3_rate_zero_rounding_float_bug :
    calculate_monthly_installment (3/20) 0 6 = 3/100 ∧
    roundHalfUpCents ((3/20 : ℚ) / 6) = 3/100 ∧
    ((2:ℚ) ^ (-3 : ℤ) ≤ 3/20 ∧ (3/20 : ℚ) < 2 ^ (-2 : ℤ)) ∧
    ((2:ℚ) ^ (-6 : ℤ) ≤ flAt (-3) (3/20) / 6 ∧ flAt (-3) (3/20) / 6 < 2 ^ (-5 : ℤ)) ∧
    flAt (-6) (flAt (-3) (3/20) / 6) < 1/40 ∧
    roundHalfUpCents (flAt (-6) (flAt (-3) (3/20) / 6)) = 1/50 := by
  refine ⟨?_, ?_, ⟨by norm_num, by norm_num⟩, ?_, ?_, ?_⟩
  · norm_num [calculate_monthly_installment, roundHalfUpCents]
  · norm_num [roundHalfUpCents]
  · constructor <;> norm_num [flAt, rne]
  · norm_num [flAt, rne]
  · norm_num [flAt, rne, roundHalfUpCents]

/-- Witness for C2: freshCustomer with no loans, today0, loan 100000 at
rate 10.5 over 12 months. -/
theorem c2_fresh_customer_scenario_witness :
    getCustomer dbFresh 1 = some freshCustomer ∧
    customerLoans dbFresh freshCustomer = [] ∧
    calculate_monthly_installment 100000 12 12 ≤ freshCustomer.monthly_salary * (1/2) ∧
    (calculate_credit_score dbFresh today0 freshCustomer = 50 ∧
     get_corrected_interest_rate (calculate_credit_score dbFresh today0 freshCustomer) (21/2) = 12 ∧
     check_eligibility dbFresh today0 1 100000 (21/2) 12 =
       ⟨true, "Loan approved with corrected interest rate", 21/2, 12,
         calculate_monthly_installment 100000 12 12⟩) := by
  have h1 : getCustomer dbFresh 1 = some freshCustomer := rfl
  have h2 : customerLoans dbFresh freshCustomer = [] := rfl
  have h3 : calculate_monthly_installment 100000 12 12 ≤
      freshCustomer.monthly_salary * (1/2) := by
    norm_num [calculate_monthly_installment, roundHalfUpCents, freshCustomer]
  exact ⟨h1, h2, h3, c2_fresh_customer_scenario dbFresh today0 1 freshCustomer h1 h2 h3⟩

/-- Witness for C4: seasonedCustomer already pays 60000 a month on an
active loan, above half of the 100000 salary on its own. -/
theorem c4_emi_cap_rejection_witness :
    getCustomer dbBigEmi 1 = some seasonedCustomer ∧
    10 < calculate_credit_score dbBigEmi today0 seasonedCustomer ∧
    (seasonedCustomer.monthly_salary * (1/2) <
      ((dbBigEmi.loans.filter (fun l => l.customer_id == seasonedCustomer.customer_id &&
          decide (today0 ≤ l.end_date))).map Loan.monthly_repayment).sum +
        calculate_monthly_installment 100000
          (get_corrected_interest_rate
            (calculate_credit_score dbBigEmi today0 seasonedCustomer) 10) 12) ∧
    0 < calculate_monthly_installment 100000
      (get_corrected_interest_rate (calculate_credit_score dbBigEmi today0 seasonedCustomer) 10) 12 ∧
    check_eligibility dbBigEmi today0 1 100000 10 12 =
      ⟨false, "Total EMI would exceed 50% of monthly salary", 10,
        get_corrected_interest_rate (calculate_credit_score dbBigEmi today0 seasonedCustomer) 10,
        0⟩ := by
  have hscore : calculate_credit_score dbBigEmi today0 seasonedCustomer = 59 := by
    norm_num [calculate_credit_score, customerLoans, dbBigEmi, seasonedCustomer, bigEmiLoan,
      today0, max_def, min_def]
  have hfil : dbBigEmi.loans.filter (fun l => l.customer_id == seasonedCustomer.customer_id &&
      decide (today0 ≤ l.end_date)) = [bigEmiLoan] := rfl
  have hb : 10 < calculate_credit_score dbBigEmi today0 seasonedCustomer := by
    rw [hscore]
    norm_num
  have hemi : seasonedCustomer.monthly_salary * (1/2) <
      ((dbBigEmi.loans.filter (fun l => l.customer_id == seasonedCustomer.customer_id &&
          decide (today0 ≤ l.end_date))).map Loan.monthly_repayment).sum +
        calculate_monthly_installment 100000
          (get_corrected_interest_rate
            (calculate_credit_score dbBigEmi today0 seasonedCustomer) 10) 12 := by
    rw [hfil, hscore]
    norm_num [seasonedCustomer, bigEmiLoan, get_corrected_interest_rate,
      calculate_monthly_installment, roundHalfUpCents, max_def]
  have hpos : 0 < calculate_monthly_installment 100000
      (get_corrected_interest_rate (calculate_credit_score dbBigEmi today0 seasonedCustomer) 10)
      12 := by
    rw [hscore]
    norm_num [get_corrected_interest_rate, calculate_monthly_installment,
      roundHalfUpCents, max_def]
  exact ⟨rfl, hb, hemi, hpos,
    c4_emi_cap_rejection dbBigEmi today0 1 seasonedCustomer 100000 10 12 rfl hb hemi hpos⟩

/-- Witness for C9: seasonedCustomer with a small active EMI of 1000, so
the affordability check passes and the verdict approves. -/
theorem c9_low_rate_branch_unreachable_witness :
    getCustomer dbSmallEmi 1 = some seasonedCustomer ∧
    10 < calculate_credit_score dbSmallEmi today0 seasonedCustomer ∧
    (((dbSmallEmi.loans.filter (fun l => l.customer_id == seasonedCustomer.customer_id &&
        decide (today0 ≤ l.end_date))).map Loan.monthly_repayment).sum +
      calculate_monthly_installment 100000
        (get_corrected_interest_rate
          (calculate_credit_score dbSmallEmi today0 seasonedCustomer) 10) 12 ≤
      seasonedCustomer.monthly_salary * (1/2)) ∧
    ((check_eligibility dbSmallEmi today0 1 100000 10 12).approval = true ∧
     (check_eligibility dbSmallEmi today0 1 100000 10 12).message ≠
       "Interest rate too low for credit score") := by
  have hscore : calculate_credit_score dbSmallEmi today0 seasonedCustomer = 59 := by
    norm_num [calculate_credit_score, customerLoans, dbSmallEmi, seasonedCustomer, smallEmiLoan,
      today0, max_def, min_def]
  have hfil : dbSmallEmi.loans.filter (fun l => l.customer_id == seasonedCustomer.customer_id &&
      decide (today0 ≤ l.end_date)) = [smallEmiLoan] := rfl
  have hb : 10 < calculate_credit_score dbSmallEmi today0 seasonedCustomer := by
    rw [hscore]
    norm_num
  have haff : ((dbSmallEmi.loans.filter (fun l => l.customer_id == seasonedCustomer.customer_id &&
      decide (today0 ≤ l.end_date))).map Loan.monthly_repayment).sum +
      calculate_monthly_installment 100000
        (get_corrected_interest_rate
          (calculate_credit_score dbSmallEmi today0 seasonedCustomer) 10) 12 ≤
      seasonedCustomer.monthly_salary * (1/2) := by
    rw [hfil, hscore]
    norm_num [seasonedCustomer, smallEmiLoan, get_corrected_interest_rate,
      calculate_monthly_installment, roundHalfUpCents, max_def]
  exact ⟨rfl, hb, haff,
    c9_low_rate_branch_unreachable dbSmallEmi today0 1 seasonedCustomer 100000 10 12 rfl hb haff⟩

/-- Witness for C7: issuing the approved fresh-customer loan adds 100000
to the current debt and persists the corrected-rate loan record. -/
theorem c7_issuance_effects_witness :
    (check_eligibility dbFresh today0 1 100000 (21/2) 12).approval = true ∧
    getCustomer dbFresh 1 = some freshCustomer ∧
    ((create_loan dbFresh today0 1 100000 (21/2) 12).loan =
      some ⟨freshCustomer.customer_id, 100000, 12,
        (check_eligibility dbFresh today0 1 100000 (21/2) 12).corrected_interest_rate,
        (check_eligibility dbFresh today0 1 100000 (21/2) 12).monthly_installment,
        0, today0, today0.addMonths 12⟩ ∧
     getCustomer (create_loan dbFresh today0 1 100000 (21/2) 12).db 1 =
       some { freshCustomer with current_debt := freshCustomer.current_debt + 100000 } ∧
     (create_loan dbFresh today0 1 100000 (21/2) 12).loan_approved = true) := by
  have hver : check_eligibility dbFresh today0 1 100000 (21/2) 12 =
      ⟨true, "Loan approved with corrected interest rate", 21/2, 12,
        calculate_monthly_installment 100000 12 12⟩ := by
    norm_num [check_eligibility, getCustomer, dbFresh, freshCustomer, calculate_credit_score,
      customerLoans, get_corrected_interest_rate, calculate_monthly_installment,
      roundHalfUpCents, max_def, today0]
  have happ : (check_eligibility dbFresh today0 1 100000 (21/2) 12).approval = true := by
    rw [hver]
  exact ⟨happ, rfl,
    c7_issuance_effects dbFresh today0 1 freshCustomer 100000 (21/2) 12 happ rfl⟩

end Alemeno
